import Mathlib

/-!
Verification development for the cube-solver repository.

The slice-rotation engine and the puzzle-state pipeline are shallowly embedded
over exact rationals: the f32 vectors, 3x3 matrices and quaternions of the
source are modelled as records of rationals (a quaternion is represented by
the rotation matrix it denotes, matching the Mat3 round trips the source
performs), ECS component state is explicit record state, and Bevy command
queues are applied in program order.  Strings are Lean strings; fallible
operations return Option.  Source file and function names are kept where the
identifier is legal here.
-/

namespace CubeSolver

/-! ## Rational 3-vectors and 3x3 matrices (model of Vec3 / Mat3 / Quat) -/

/-- Model of Vec3 with exact rational coordinates. -/
structure V3 where
  x : ℚ
  y : ℚ
  z : ℚ
deriving DecidableEq

def V3.add (a b : V3) : V3 := ⟨a.x + b.x, a.y + b.y, a.z + b.z⟩

def V3.neg (a : V3) : V3 := ⟨-a.x, -a.y, -a.z⟩

def V3.smul (q : ℚ) (a : V3) : V3 := ⟨q * a.x, q * a.y, q * a.z⟩

def V3.dot (a b : V3) : ℚ := a.x * b.x + a.y * b.y + a.z * b.z

/-- Model of Vec3::cross. -/
def V3.cross (a b : V3) : V3 :=
  ⟨a.y * b.z - a.z * b.y, a.z * b.x - a.x * b.z, a.x * b.y - a.y * b.x⟩

/-- Model of Vec3::length_squared. -/
def V3.normSq (a : V3) : ℚ := V3.dot a a

def V3.zero : V3 := ⟨0, 0, 0⟩

/-- Model of Mat3 stored by columns, as glam does (x_axis, y_axis, z_axis). -/
structure M3 where
  cx : V3
  cy : V3
  cz : V3
deriving DecidableEq

def M3.mulVec (m : M3) (v : V3) : V3 :=
  V3.add (V3.smul v.x m.cx) (V3.add (V3.smul v.y m.cy) (V3.smul v.z m.cz))

def M3.mul (a b : M3) : M3 := ⟨a.mulVec b.cx, a.mulVec b.cy, a.mulVec b.cz⟩

def M3.idm : M3 := ⟨⟨1, 0, 0⟩, ⟨0, 1, 0⟩, ⟨0, 0, 1⟩⟩

def M3.det (m : M3) : ℚ := V3.dot m.cx (V3.cross m.cy m.cz)

/-- Inverse of a 3x3 matrix by the adjugate formula (rows are scaled cross
products of the columns); junk when the determinant is zero, which every use
below guards by hypothesis. -/
def M3.inv (m : M3) : M3 :=
  let d := m.det
  let r1 := V3.smul (1 / d) (V3.cross m.cy m.cz)
  let r2 := V3.smul (1 / d) (V3.cross m.cz m.cx)
  let r3 := V3.smul (1 / d) (V3.cross m.cx m.cy)
  ⟨⟨r1.x, r2.x, r3.x⟩, ⟨r1.y, r2.y, r3.y⟩, ⟨r1.z, r2.z, r3.z⟩⟩

theorem M3.mul_assoc (a b c : M3) : M3.mul (M3.mul a b) c = M3.mul a (M3.mul b c) := by
  obtain ⟨⟨_, _, _⟩, ⟨_, _, _⟩, ⟨_, _, _⟩⟩ := a
  obtain ⟨⟨_, _, _⟩, ⟨_, _, _⟩, ⟨_, _, _⟩⟩ := b
  obtain ⟨⟨_, _, _⟩, ⟨_, _, _⟩, ⟨_, _, _⟩⟩ := c
  simp only [M3.mul, M3.mulVec, V3.add, V3.smul, M3.mk.injEq, V3.mk.injEq]
  refine ⟨⟨?_, ?_, ?_⟩, ⟨?_, ?_, ?_⟩, ?_, ?_, ?_⟩ <;> ring

theorem M3.idm_mul (a : M3) : M3.mul M3.idm a = a := by
  obtain ⟨⟨_, _, _⟩, ⟨_, _, _⟩, ⟨_, _, _⟩⟩ := a
  simp only [M3.mul, M3.idm, M3.mulVec, V3.add, V3.smul, M3.mk.injEq, V3.mk.injEq]
  refine ⟨⟨?_, ?_, ?_⟩, ⟨?_, ?_, ?_⟩, ?_, ?_, ?_⟩ <;> ring

theorem M3.mulVec_mul (a b : M3) (v : V3) :
    (M3.mul a b).mulVec v = a.mulVec (b.mulVec v) := by
  obtain ⟨⟨_, _, _⟩, ⟨_, _, _⟩, ⟨_, _, _⟩⟩ := a
  obtain ⟨⟨_, _, _⟩, ⟨_, _, _⟩, ⟨_, _, _⟩⟩ := b
  obtain ⟨_, _, _⟩ := v
  simp only [M3.mul, M3.mulVec, V3.add, V3.smul, V3.mk.injEq]
  refine ⟨?_, ?_, ?_⟩ <;> ring

theorem M3.mulVec_idm (v : V3) : M3.idm.mulVec v = v := by
  obtain ⟨_, _, _⟩ := v
  simp only [M3.idm, M3.mulVec, V3.add, V3.smul, V3.mk.injEq]
  refine ⟨?_, ?_, ?_⟩ <;> ring

theorem M3.mulVec_add (a : M3) (u v : V3) :
    a.mulVec (V3.add u v) = V3.add (a.mulVec u) (a.mulVec v) := by
  obtain ⟨⟨_, _, _⟩, ⟨_, _, _⟩, ⟨_, _, _⟩⟩ := a
  obtain ⟨_, _, _⟩ := u
  obtain ⟨_, _, _⟩ := v
  simp only [M3.mulVec, V3.add, V3.smul, V3.mk.injEq]
  refine ⟨?_, ?_, ?_⟩ <;> ring

theorem M3.mulVec_neg (a : M3) (v : V3) : a.mulVec (V3.neg v) = V3.neg (a.mulVec v) := by
  obtain ⟨⟨_, _, _⟩, ⟨_, _, _⟩, ⟨_, _, _⟩⟩ := a
  obtain ⟨_, _, _⟩ := v
  simp only [M3.mulVec, V3.neg, V3.add, V3.smul, V3.mk.injEq]
  refine ⟨?_, ?_, ?_⟩ <;> ring

theorem M3.mul_inv (m : M3) (h : m.det ≠ 0) : M3.mul m (M3.inv m) = M3.idm := by
  obtain ⟨⟨a, b, c⟩, ⟨d, e, f⟩, ⟨g, h2, i⟩⟩ := m
  simp only [M3.det, V3.dot, V3.cross] at h
  simp only [M3.mul, M3.inv, M3.det, M3.idm, M3.mulVec, V3.add, V3.smul, V3.dot,
    V3.cross, M3.mk.injEq, V3.mk.injEq]
  refine ⟨⟨?_, ?_, ?_⟩, ⟨?_, ?_, ?_⟩, ?_, ?_, ?_⟩ <;> (field_simp; ring)

/-! ## Rigid poses (model of Transform / GlobalTransform affines)

Cube pieces have unit scale, so a Transform and the affine it denotes are both
modelled as a rotation-like linear part together with a translation.  On this
representation `to_scale_rotation_translation` followed by storing the parts
back into a Transform is the identity, so it is elided. -/

/-- A rigid pose: linear part (rotation at unit scale) and translation. -/
structure Pose where
  rot : M3
  trans : V3
deriving DecidableEq

/-- Affine composition: the pose of a child under a parent. -/
def Pose.comp (p q : Pose) : Pose :=
  ⟨M3.mul p.rot q.rot, V3.add (p.rot.mulVec q.trans) p.trans⟩

/-- Model of Affine3A::inverse on a rigid pose. -/
def Pose.inv (p : Pose) : Pose :=
  ⟨M3.inv p.rot, V3.neg ((M3.inv p.rot).mulVec p.trans)⟩

def Pose.idp : Pose := ⟨M3.idm, V3.zero⟩

theorem Pose.comp_inv_comp (p g : Pose) (h : p.rot.det ≠ 0) :
    Pose.comp p (Pose.comp (Pose.inv p) g) = g := by
  obtain ⟨gr, gt⟩ := g
  simp only [Pose.comp, Pose.inv, Pose.mk.injEq]
  constructor
  · rw [← M3.mul_assoc, M3.mul_inv p.rot h, M3.idm_mul]
  · rw [M3.mulVec_add, M3.mulVec_neg, ← M3.mulVec_mul, ← M3.mulVec_mul,
      M3.mul_inv p.rot h, M3.mulVec_idm, M3.mulVec_idm]
    obtain ⟨_, _, _⟩ := gt
    obtain ⟨_, _, _⟩ := p.trans
    simp only [V3.add, V3.neg, V3.mk.injEq]
    refine ⟨?_, ?_, ?_⟩ <;> ring

/-! ## Grid snapping (layer_rotation.rs: snap_vec3_to_grid) -/

/-- Model of f32::round, which rounds half away from zero. -/
def roundRust (q : ℚ) : Int :=
  if 0 ≤ q then Int.floor (q + 1 / 2) else -Int.floor (-q + 1 / 2)

/-- Model of i32::clamp(-1, 1). -/
def clampPm1 (n : Int) : Int := max (-1) (min 1 n)

/-- Per-axis snap from snap_vec3_to_grid: round to the nearest multiple of the
grid step 2/3 and clamp the index to the rest lattice. -/
def snap_axis (v : ℚ) : ℚ :=
  let step : ℚ := 2 / 3
  let n := clampPm1 (roundRust (v / step))
  (n : ℚ) * step

/-- Model of snap_vec3_to_grid (layer_rotation.rs). -/
def snap_vec3_to_grid (p : V3) : V3 := ⟨snap_axis p.x, snap_axis p.y, snap_axis p.z⟩

/-! ## Faces, move types and parsing (cube_moves.rs, layer_components.rs) -/

/-- Model of CubeFace (cube_moves.rs). -/
inductive CubeFace
  | Front
  | Back
  | Right
  | Left
  | Up
  | Down
deriving DecidableEq

/-- Model of MoveType (cube_moves.rs). -/
inductive MoveType
  | Clockwise
  | CounterClockwise
  | Double
deriving DecidableEq

/-- Model of LayerFace (layer_components.rs): the nine rotatable slices. -/
inductive LayerFace
  | Right
  | MiddleX
  | Left
  | Up
  | MiddleY
  | Down
  | Front
  | MiddleZ
  | Back
deriving DecidableEq

/-- Model of LayerMoveType (layer_components.rs). -/
inductive LayerMoveType
  | Clockwise
  | CounterClockwise
  | Double
deriving DecidableEq

/-- Model of LayerFace::from_cube_face. -/
def LayerFace.from_cube_face : CubeFace → LayerFace
  | CubeFace.Front => LayerFace.Front
  | CubeFace.Back => LayerFace.Back
  | CubeFace.Right => LayerFace.Right
  | CubeFace.Left => LayerFace.Left
  | CubeFace.Up => LayerFace.Up
  | CubeFace.Down => LayerFace.Down

/-- Model of LayerMoveType::from_move_type. -/
def LayerMoveType.from_move_type : MoveType → LayerMoveType
  | MoveType.Clockwise => LayerMoveType.Clockwise
  | MoveType.CounterClockwise => LayerMoveType.CounterClockwise
  | MoveType.Double => LayerMoveType.Double

/-- The prime character used for counter-clockwise suffixes. -/
def primeChar : Char := Char.ofNat 39

/-- The suffix logic shared by both parsers: none means a quarter clockwise
turn, a prime means counter-clockwise, the digit 2 a half turn, anything else
is a parse failure. -/
def suffix_move_type (rest : List Char) : Option MoveType :=
  if rest = [] then some MoveType.Clockwise
  else if rest = [primeChar] then some MoveType.CounterClockwise
  else if rest = ['2'] then some MoveType.Double
  else none

/-- Model of the move parser of cube_moves.rs (source name ends in the word
for textual syntax): the first character picks an outer face, the remainder
picks the turn kind. -/
def parse_move (s : List Char) : Option (CubeFace × MoveType) :=
  match s with
  | [] => none
  | c :: rest =>
    let face? : Option CubeFace :=
      if c = 'F' then some CubeFace.Front
      else if c = 'B' then some CubeFace.Back
      else if c = 'R' then some CubeFace.Right
      else if c = 'L' then some CubeFace.Left
      else if c = 'U' then some CubeFace.Up
      else if c = 'D' then some CubeFace.Down
      else none
    match face? with
    | none => none
    | some face =>
      match suffix_move_type rest with
      | none => none
      | some mt => some (face, mt)

/-- The middle-layer copy of the suffix logic (layer_rotation.rs builds
LayerMoveType values directly). -/
def suffix_layer_move_type (rest : List Char) : Option LayerMoveType :=
  if rest = [] then some LayerMoveType.Clockwise
  else if rest = [primeChar] then some LayerMoveType.CounterClockwise
  else if rest = ['2'] then some LayerMoveType.Double
  else none

/-- Model of the extended move parser of layer_rotation.rs: outer faces via
the standard parser, then M, E, S for the middle slices. -/
def parse_extended_move (s : List Char) : Option (LayerFace × LayerMoveType) :=
  if s = [] then none
  else
    match parse_move s with
    | some (face, mt) =>
        some (LayerFace.from_cube_face face, LayerMoveType.from_move_type mt)
    | none =>
      match s with
      | [] => none
      | c :: rest =>
        let lf? : Option LayerFace :=
          if c = 'M' then some LayerFace.MiddleX
          else if c = 'E' then some LayerFace.MiddleY
          else if c = 'S' then some LayerFace.MiddleZ
          else none
        match lf? with
        | none => none
        | some lf =>
          match suffix_layer_move_type rest with
          | none => none
          | some mt => some (lf, mt)

/-! ## Slice membership (layer_components.rs: cube_belongs_to_layer) -/

/-- Model of cube_belongs_to_layer: tolerance band of 0.1 around the 0.5
boundary on the axis of the slice. -/
def cube_belongs_to_layer (p : V3) (f : LayerFace) : Bool :=
  let tolerance : ℚ := 1 / 10
  match f with
  | LayerFace.Right => decide (1 / 2 - tolerance < p.x)
  | LayerFace.MiddleX => decide (|p.x| < 1 / 2 + tolerance)
  | LayerFace.Left => decide (p.x < -(1 / 2) + tolerance)
  | LayerFace.Up => decide (1 / 2 - tolerance < p.y)
  | LayerFace.MiddleY => decide (|p.y| < 1 / 2 + tolerance)
  | LayerFace.Down => decide (p.y < -(1 / 2) + tolerance)
  | LayerFace.Front => decide (1 / 2 - tolerance < p.z)
  | LayerFace.MiddleZ => decide (|p.z| < 1 / 2 + tolerance)
  | LayerFace.Back => decide (p.z < -(1 / 2) + tolerance)

/-! ## Move dispatch and the animation-presence state (layer_rotation.rs:
handle_extended_move_commands)

That system reads the animation components only through the query
`animating_any` (presence of a LayerRotationAnimation on any pivot) and
through `commands.insert` of a fresh animation, so its control flow is
modelled on the per-pivot presence map `LayerFace → Bool`.  The flag
`rotation_in_progress` is computed once, before the event loop, exactly as in
the source; inserts are applied in program order. -/

def allLayerFaces : List LayerFace :=
  [LayerFace.Right, LayerFace.MiddleX, LayerFace.Left,
   LayerFace.Up, LayerFace.MiddleY, LayerFace.Down,
   LayerFace.Front, LayerFace.MiddleZ, LayerFace.Back]

/-- Model of the `animating_any` query: some pivot carries an animation. -/
def anyActive (st : LayerFace → Bool) : Bool := allLayerFaces.any st

/-- Number of pivots currently carrying a LayerRotationAnimation. -/
def countActive (st : LayerFace → Bool) : Nat :=
  (allLayerFaces.filter (fun f => st f)).length

/-- Model of start_layer_rotation on the presence map: insert an animation
component on the pivot of the given face (an insert overwrites). -/
def start_layer_rotation (st : LayerFace → Bool) (f : LayerFace) : LayerFace → Bool :=
  fun g => if g = f then true else st g

/-- Model of handle_extended_move_commands: one system run over the batch of
pending CubeMoveEvents. -/
def handle_extended_move_commands (st : LayerFace → Bool)
    (events : List (List Char)) : LayerFace → Bool :=
  let rotation_in_progress := anyActive st
  events.foldl
    (fun s ev =>
      if rotation_in_progress = true then s
      else
        match parse_extended_move ev with
        | some (layer_face, _mt) => start_layer_rotation s layer_face
        | none => s)
    st

theorem mem_allLayerFaces (g : LayerFace) : g ∈ allLayerFaces := by
  cases g <;> decide

theorem handle_busy_eq (st : LayerFace → Bool) (events : List (List Char))
    (h : anyActive st = true) : handle_extended_move_commands st events = st := by
  unfold handle_extended_move_commands
  simp only [h, if_true]
  induction events with
  | nil => rfl
  | cons e es ih => simp only [List.foldl] at ih ⊢; exact ih

theorem countActive_eq_zero (st : LayerFace → Bool) (h : anyActive st = false) :
    countActive st = 0 := by
  unfold countActive
  rw [List.length_eq_zero, List.filter_eq_nil_iff]
  intro a _
  have := (List.any_eq_false).mp h a (mem_allLayerFaces a)
  simpa using this

theorem countActive_start (st : LayerFace → Bool) (f : LayerFace)
    (h : ∀ g, st g = false) : countActive (start_layer_rotation st f) = 1 := by
  unfold countActive start_layer_rotation
  rw [List.filter_congr (l := allLayerFaces)
    (q := fun g => decide (g = f)) (by intro g _; by_cases hg : g = f <;> simp [hg, h g])]
  cases f <;> decide

theorem handle_single_bound (st : LayerFace → Bool) (ev : List Char)
    (h : countActive st ≤ 1) :
    countActive (handle_extended_move_commands st [ev]) ≤ 1 := by
  by_cases hb : anyActive st = true
  · rw [handle_busy_eq st [ev] hb]; exact h
  · have hb' : anyActive st = false := by simpa using hb
    have hz : ∀ g, st g = false := by
      intro g
      have := (List.any_eq_false).mp hb' g (mem_allLayerFaces g)
      simpa using this
    unfold handle_extended_move_commands
    simp only [hb', List.foldl, Bool.false_eq_true, if_false]
    rcases hp : parse_extended_move ev with _ | ⟨lf, mt⟩
    · simp [hp, countActive_eq_zero st hb']
    · simp only [hp]
      rw [countActive_start st lf hz]

/-! ## C1 -/

/-- C1 counterexample: from the quiescent state (no pivot animating), one
move-handling tick that reads two parseable MoveRequested events for
different slices starts an animation on both pivots, because
`rotation_in_progress` is computed once before the event loop and command
application is deferred; two LayerRotationAnimations then exist at once,
refuting the unconditional at-most-one invariant. -/
theorem single_flight_counterexample :
    countActive (fun _ => false) = 0 ∧
      countActive (handle_extended_move_commands (fun _ => false) [['R'], ['U']]) = 2 := by
  constructor
  · decide
  · decide

/-- C1 (amended): if any pivot carries an active LayerRotationAnimation when
the move-handling system runs, every MoveRequested event of that tick is
discarded: no animation is created or replaced, nothing is queued (the model,
like the code, has no queue), and the animation-presence state is unchanged.
Moreover, when at most one animation exists and at most one MoveRequested
event is dispatched per tick, at most one animation exists afterwards. -/
theorem single_flight_amended :
    (∀ (st : LayerFace → Bool) (events : List (List Char)),
        anyActive st = true → handle_extended_move_commands st events = st)
    ∧ (∀ (st : LayerFace → Bool) (ev : List Char),
        countActive st ≤ 1 →
          countActive (handle_extended_move_commands st [ev]) ≤ 1) :=
  ⟨handle_busy_eq, handle_single_bound⟩

/-- C1 witness: a state animating the Right slice discards an incoming U
move, and a single move from rest keeps the animation count at one. -/
theorem single_flight_witness :
    (handle_extended_move_commands (fun g => decide (g = LayerFace.Right)) [['U']]
        = fun g => decide (g = LayerFace.Right))
      ∧ countActive (handle_extended_move_commands (fun _ => false) [['U']]) ≤ 1 :=
  ⟨single_flight_amended.1 (fun g => decide (g = LayerFace.Right)) [['U']] (by decide),
   single_flight_amended.2 (fun _ => false) ['U'] (by decide)⟩

/-! ## C8 -/

/-- C8: the slice-membership predicate is exactly the tolerance-band
definition with tolerance 0.1 — outer positive slices need the axis
coordinate above 0.5 - 0.1, outer negative below -0.5 + 0.1, middle slices
need its absolute value below 0.5 + 0.1 — and the coordinates on the other
two axes never affect the result. -/
theorem cube_belongs_to_layer_spec :
    (∀ p : V3,
      (cube_belongs_to_layer p LayerFace.Right = true ↔ 1 / 2 - 1 / 10 < p.x)
      ∧ (cube_belongs_to_layer p LayerFace.Left = true ↔ p.x < -(1 / 2) + 1 / 10)
      ∧ (cube_belongs_to_layer p LayerFace.MiddleX = true ↔ |p.x| < 1 / 2 + 1 / 10)
      ∧ (cube_belongs_to_layer p LayerFace.Up = true ↔ 1 / 2 - 1 / 10 < p.y)
      ∧ (cube_belongs_to_layer p LayerFace.Down = true ↔ p.y < -(1 / 2) + 1 / 10)
      ∧ (cube_belongs_to_layer p LayerFace.MiddleY = true ↔ |p.y| < 1 / 2 + 1 / 10)
      ∧ (cube_belongs_to_layer p LayerFace.Front = true ↔ 1 / 2 - 1 / 10 < p.z)
      ∧ (cube_belongs_to_layer p LayerFace.Back = true ↔ p.z < -(1 / 2) + 1 / 10)
      ∧ (cube_belongs_to_layer p LayerFace.MiddleZ = true ↔ |p.z| < 1 / 2 + 1 / 10))
    ∧ (∀ p q : V3, p.x = q.x →
        cube_belongs_to_layer p LayerFace.Right = cube_belongs_to_layer q LayerFace.Right
        ∧ cube_belongs_to_layer p LayerFace.MiddleX = cube_belongs_to_layer q LayerFace.MiddleX
        ∧ cube_belongs_to_layer p LayerFace.Left = cube_belongs_to_layer q LayerFace.Left)
    ∧ (∀ p q : V3, p.y = q.y →
        cube_belongs_to_layer p LayerFace.Up = cube_belongs_to_layer q LayerFace.Up
        ∧ cube_belongs_to_layer p LayerFace.MiddleY = cube_belongs_to_layer q LayerFace.MiddleY
        ∧ cube_belongs_to_layer p LayerFace.Down = cube_belongs_to_layer q LayerFace.Down)
    ∧ (∀ p q : V3, p.z = q.z →
        cube_belongs_to_layer p LayerFace.Front = cube_belongs_to_layer q LayerFace.Front
        ∧ cube_belongs_to_layer p LayerFace.MiddleZ = cube_belongs_to_layer q LayerFace.MiddleZ
        ∧ cube_belongs_to_layer p LayerFace.Back = cube_belongs_to_layer q LayerFace.Back) := by
  refine ⟨?_, ?_, ?_, ?_⟩
  · intro p
    simp [cube_belongs_to_layer]
  · intro p q h
    simp [cube_belongs_to_layer, h]
  · intro p q h
    simp [cube_belongs_to_layer, h]
  · intro p q h
    simp [cube_belongs_to_layer, h]

/-- C8 witness: two positions sharing only the x coordinate classify alike
for the Right slice, and the Right band accepts x = 2/3. -/
theorem cube_belongs_to_layer_witness :
    (cube_belongs_to_layer ⟨2 / 3, 0, 0⟩ LayerFace.Right
        = cube_belongs_to_layer ⟨2 / 3, 5, 7⟩ LayerFace.Right)
      ∧ cube_belongs_to_layer ⟨2 / 3, 0, 0⟩ LayerFace.Right = true :=
  ⟨(cube_belongs_to_layer_spec.2.1 ⟨2 / 3, 0, 0⟩ ⟨2 / 3, 5, 7⟩ rfl).1,
   ((cube_belongs_to_layer_spec.1 ⟨2 / 3, 0, 0⟩).1).mpr (by norm_num)⟩

/-! ## C9 -/

theorem suffix_move_type_isSome (rest : List Char) :
    (suffix_move_type rest).isSome
      = (decide (rest = []) || decide (rest = [primeChar]) || decide (rest = ['2'])) := by
  unfold suffix_move_type
  split_ifs with h1 h2 h3 <;> simp_all

theorem suffix_layer_move_map (rest : List Char) :
    suffix_layer_move_type rest
      = (suffix_move_type rest).map LayerMoveType.from_move_type := by
  unfold suffix_layer_move_type suffix_move_type
  split_ifs <;> simp [LayerMoveType.from_move_type]

theorem parse_extended_isSome (c : Char) (rest : List Char) :
    (parse_extended_move (c :: rest)).isSome
      = (decide (c ∈ (['F', 'B', 'R', 'L', 'U', 'D', 'M', 'E', 'S'] : List Char))
          && (suffix_move_type rest).isSome) := by
  by_cases hc : c ∈ (['F', 'B', 'R', 'L', 'U', 'D', 'M', 'E', 'S'] : List Char)
  · fin_cases hc <;>
      rcases hs : suffix_move_type rest with _ | mt <;>
        simp [parse_extended_move, parse_move, suffix_layer_move_map, hs]
  · have hnot : parse_move (c :: rest) = none := by
      simp only [List.mem_cons, List.mem_singleton] at hc
      push_neg at hc
      obtain ⟨h1, h2, h3, h4, h5, h6, h7, h8, h9⟩ := hc
      unfold parse_move
      simp [h1, h2, h3, h4, h5, h6]
    simp only [List.mem_cons, List.mem_singleton] at hc
    push_neg at hc
    obtain ⟨h1, h2, h3, h4, h5, h6, h7, h8, h9⟩ := hc
    simp [parse_extended_move, hnot, h1, h2, h3, h4, h5, h6, h7, h8, h9]

/-- C9: extended move parsing succeeds exactly when the first character is
one of F,B,R,L,U,D (outer slices) or M,E,S (middle slices) and the rest of
the input is empty (quarter clockwise), a single prime (counter-clockwise),
or a single digit 2 (half turn); on any failing input the move-handling step
performs no state change. -/
theorem parse_extended_move_spec :
    (∀ s : List Char,
      (parse_extended_move s).isSome
        = (match s with
           | [] => false
           | c :: rest =>
              decide (c ∈ (['F', 'B', 'R', 'L', 'U', 'D', 'M', 'E', 'S'] : List Char))
                && (decide (rest = []) || decide (rest = [primeChar])
                      || decide (rest = ['2']))))
    ∧ (∀ (st : LayerFace → Bool) (ev : List Char),
        anyActive st = false → parse_extended_move ev = none →
        handle_extended_move_commands st [ev] = st) := by
  constructor
  · intro s
    rcases s with _ | ⟨c, rest⟩
    · simp [parse_extended_move]
    · rw [parse_extended_isSome, suffix_move_type_isSome]
  · intro st ev h hp
    unfold handle_extended_move_commands
    simp [h, hp, List.foldl]

/-- C9 witness: an unparseable notation such as the single character X
leaves the animation-presence state untouched. -/
theorem parse_extended_move_witness :
    handle_extended_move_commands (fun _ => false) [['X']] = (fun _ => false) :=
  parse_extended_move_spec.2 (fun _ => false) ['X'] (by decide) (by decide)

/-! ## Validation state machine (solver_integration.rs)

The formatted message strings the source builds with format! are modelled as
tagged data carrying the same fields, so the kind of each reason is explicit.
-/

/-- Model of the format! sites of perform_lightweight_validation_only and its
helpers, one constructor per distinct message. -/
inductive InvalidReason
  | badLength (found : Nat)
  | incomplete (blanks : Nat)
  | badChar (c : Char) (i : Nat)
  | badCount (c : Char) (n : Nat)
  | badCenter (i : Nat) (expected actual : Char)
deriving DecidableEq

/-- Model of Min2PhaseError (solver_integration.rs). -/
inductive Min2PhaseError
  | InvalidFaceletLength
  | InvalidFaceletCharacter
  | IncorrectColorCount
  | MissingEdges
  | EdgeFlipError
  | MissingCorners
  | CornerTwistError
  | ParityError
  | NoSolutionExists
  | ProbeLimitExceeded
deriving DecidableEq

/-- Model of the SolvingFailed message built in attempt_solve: either the
detailed message assembled from a recognised taxonomy entry and the raw
oracle output, or the unknown-error fallback. -/
inductive FailMsg
  | known (e : Min2PhaseError) (raw : String)
  | unknown (raw : String)
deriving DecidableEq

/-- Model of CubeValidation. -/
inductive Validation
  | notValidated
  | valid
  | invalid (r : InvalidReason)
  | solvingFailed (m : FailMsg)
deriving DecidableEq

/-- Model of Min2PhaseError::from_error_code. -/
def Min2PhaseError.from_error_code (s : String) : Option Min2PhaseError :=
  if s = "Error 1" then some Min2PhaseError.IncorrectColorCount
  else if s = "Error 2" then some Min2PhaseError.MissingEdges
  else if s = "Error 3" then some Min2PhaseError.EdgeFlipError
  else if s = "Error 4" then some Min2PhaseError.MissingCorners
  else if s = "Error 5" then some Min2PhaseError.CornerTwistError
  else if s = "Error 6" then some Min2PhaseError.ParityError
  else if s = "Error 7" then some Min2PhaseError.NoSolutionExists
  else if s = "Error 8" then some Min2PhaseError.ProbeLimitExceeded
  else none

/-- Model of Min2PhaseError::description. -/
def Min2PhaseError.description : Min2PhaseError → String
  | Min2PhaseError.InvalidFaceletLength =>
      "Invalid facelet string: incorrect length or format"
  | Min2PhaseError.InvalidFaceletCharacter =>
      "Invalid facelet string: contains invalid characters"
  | Min2PhaseError.IncorrectColorCount =>
      "Invalid cube: there is not exactly one facelet of each color"
  | Min2PhaseError.MissingEdges => "Invalid cube: not all 12 edges exist exactly once"
  | Min2PhaseError.EdgeFlipError => "Invalid cube: one edge has to be flipped"
  | Min2PhaseError.MissingCorners => "Invalid cube: not all 8 corners exist exactly once"
  | Min2PhaseError.CornerTwistError => "Invalid cube: one corner has to be twisted"
  | Min2PhaseError.ParityError =>
      "Invalid cube: two corners or two edges have to be exchanged"
  | Min2PhaseError.NoSolutionExists =>
      "Cube is valid but no solution exists within the given move limit"
  | Min2PhaseError.ProbeLimitExceeded =>
      "Cube is valid but no solution found within the probe limit"

/-- Model of Min2PhaseError::detailed_explanation (apostrophes of the source
prose are expanded to full words, the texts are otherwise the same). -/
def Min2PhaseError.detailed_explanation : Min2PhaseError → String
  | Min2PhaseError.InvalidFaceletLength =>
      "The cube facelet string has an incorrect length or format. A valid cube must have exactly 54 facelets in the format: U1U2...U9R1R2...R9F1..F9D1..D9L1..L9B1..B9"
  | Min2PhaseError.InvalidFaceletCharacter =>
      "The cube facelet string contains invalid characters. Only the characters U, R, F, D, L, B are allowed."
  | Min2PhaseError.IncorrectColorCount =>
      "The cube has an incorrect number of facelets for each color. Each color (U, R, F, D, L, B) must appear exactly 9 times."
  | Min2PhaseError.MissingEdges =>
      "The cube is missing some edges or has duplicate edges. A valid cube must have exactly 12 edges, each appearing once."
  | Min2PhaseError.EdgeFlipError =>
      "The cube has an edge that is flipped incorrectly. This means one edge piece is oriented the wrong way."
  | Min2PhaseError.MissingCorners =>
      "The cube is missing some corners or has duplicate corners. A valid cube must have exactly 8 corners, each appearing once."
  | Min2PhaseError.CornerTwistError =>
      "The cube has a corner that is twisted incorrectly. This means one corner piece is rotated the wrong way."
  | Min2PhaseError.ParityError =>
      "The cube has a parity error. This means two pieces need to be swapped. This is impossible to solve with standard moves."
  | Min2PhaseError.NoSolutionExists =>
      "The cube is valid but cannot be solved within the current move limit. Try increasing the maximum number of moves allowed."
  | Min2PhaseError.ProbeLimitExceeded =>
      "The cube is valid but the solver could not find a solution within the time limit. This usually means the cube requires many moves to solve."

/-- Model of Min2PhaseError::suggestions (same apostrophe expansion). -/
def Min2PhaseError.suggestions : Min2PhaseError → String
  | Min2PhaseError.InvalidFaceletLength =>
      "Check that all 54 cube faces are properly colored and mapped."
  | Min2PhaseError.InvalidFaceletCharacter =>
      "Check that all 54 cube faces are properly colored and mapped."
  | Min2PhaseError.IncorrectColorCount =>
      "Make sure each color appears exactly 9 times on the cube."
  | Min2PhaseError.MissingEdges =>
      "Check that all cube pieces are in their correct positions."
  | Min2PhaseError.MissingCorners =>
      "Check that all cube pieces are in their correct positions."
  | Min2PhaseError.EdgeFlipError =>
      "Check that all pieces are oriented correctly. You may need to physically twist or flip pieces."
  | Min2PhaseError.CornerTwistError =>
      "Check that all pieces are oriented correctly. You may need to physically twist or flip pieces."
  | Min2PhaseError.ParityError =>
      "This cube cannot be solved with standard moves. You may need to disassemble and reassemble it."
  | Min2PhaseError.NoSolutionExists =>
      "Try increasing the solver move limit or probe limit. This cube may require many moves to solve."
  | Min2PhaseError.ProbeLimitExceeded =>
      "Try increasing the solver move limit or probe limit. This cube may require many moves to solve."

def VALID_CHARS : List Char := ['U', 'R', 'F', 'D', 'L', 'B']

/-- Helper of validate_characters: first character outside VALID_CHARS, with
its position. -/
def validate_characters_aux : List Char → Nat → Option InvalidReason
  | [], _ => none
  | c :: rest, i =>
    if c ∈ VALID_CHARS then validate_characters_aux rest (i + 1)
    else some (InvalidReason.badChar c i)

/-- Model of CubeState::validate_characters. -/
def validate_characters (s : String) : Option InvalidReason :=
  validate_characters_aux s.data 0

/-- Helper of validate_color_counts: the six labels are checked in the order
of VALID_CHARS, first mismatch wins (FACE_SIZE = 9). -/
def validate_color_counts_aux : List Char → List Char → Option InvalidReason
  | [], _ => none
  | c :: cs, data =>
    if data.count c = 9 then validate_color_counts_aux cs data
    else some (InvalidReason.badCount c (data.count c))

/-- Model of CubeState::validate_color_counts. -/
def validate_color_counts (s : String) : Option InvalidReason :=
  validate_color_counts_aux VALID_CHARS s.data

/-- The six fixed center positions and their required labels, in source
order. -/
def CENTER_CHECKS : List (Nat × Char) :=
  [(4, 'U'), (13, 'R'), (22, 'F'), (31, 'D'), (40, 'L'), (49, 'B')]

/-- Helper of validate_cube_structure: first center mismatch, in order. -/
def validate_cube_structure_aux : List (Nat × Char) → List Char → Option InvalidReason
  | [], _ => none
  | (i, e) :: rest, data =>
    if data.getD i ' ' = e then validate_cube_structure_aux rest data
    else some (InvalidReason.badCenter i e (data.getD i ' '))

/-- Model of CubeState::validate_cube_structure (the corner and edge blocks
of the source are commented out; only the center check is live). -/
def validate_cube_structure (s : String) : Option InvalidReason :=
  validate_cube_structure_aux CENTER_CHECKS s.data

/-- Model of CubeState::perform_lightweight_validation_only: length, blanks,
characters, color counts, then centers, first failure winning. -/
def perform_lightweight_validation_only (s : String) : Validation :=
  if s.length ≠ 54 then Validation.invalid (InvalidReason.badLength s.length)
  else if s.data.contains ' ' then
    Validation.invalid (InvalidReason.incomplete (s.data.count ' '))
  else
    match validate_characters s with
    | some r => Validation.invalid r
    | none =>
      match validate_color_counts s with
      | some r => Validation.invalid r
      | none =>
        match validate_cube_structure s with
        | some r => Validation.invalid r
        | none => Validation.valid

/-- Model of str::starts_with. -/
def str_starts_with (s p : String) : Bool := p.data.isPrefixOf s.data

/-- Model of CubeState::attempt_solve, parameterized by the external solving
oracle; the source calls solve(&self.facelets, 21). -/
def attempt_solve (solveFn : String → Nat → String) (facelets : String) :
    Validation × Option String :=
  let solution := solveFn facelets 21
  if str_starts_with solution "Error" then
    match Min2PhaseError.from_error_code solution with
    | some e => (Validation.solvingFailed (FailMsg.known e solution), none)
    | none => (Validation.solvingFailed (FailMsg.unknown solution), none)
  else (Validation.valid, some solution)

/-- Model of CubeState::validate: lightweight first, then the solving
attempt only when it passed.  The Bool records whether the oracle was
invoked. -/
def validate (solveFn : String → Nat → String) (facelets : String) :
    Validation × Option String × Bool :=
  let lw := perform_lightweight_validation_only facelets
  if lw = Validation.valid then
    let r := attempt_solve solveFn facelets
    (r.1, r.2, true)
  else (lw, none, false)

/-- Model of str::split_whitespace on the character list. -/
def split_whitespace_aux : List Char → List Char → List String
  | [], acc => if acc = [] then [] else [String.mk acc.reverse]
  | c :: rest, acc =>
    if c.isWhitespace then
      if acc = [] then split_whitespace_aux rest []
      else String.mk acc.reverse :: split_whitespace_aux rest []
    else split_whitespace_aux rest (c :: acc)

/-- Model of CubeState::solution_moves: whitespace-split the stored solution,
empty when there is none. -/
def solution_moves (sol : Option String) : List String :=
  match sol with
  | some s => split_whitespace_aux s.data []
  | none => []

/-! ## C2 -/

theorem validate_characters_aux_eq_none (l : List Char) (i : Nat) :
    validate_characters_aux l i = none ↔ ∀ c ∈ l, c ∈ VALID_CHARS := by
  induction l generalizing i with
  | nil => simp [validate_characters_aux]
  | cons c rest ih =>
    by_cases hc : c ∈ VALID_CHARS <;> simp [validate_characters_aux, hc, ih]

theorem validate_characters_eq_none (s : String) :
    validate_characters s = none ↔ ∀ c ∈ s.data, c ∈ VALID_CHARS :=
  validate_characters_aux_eq_none s.data 0

theorem validate_color_counts_aux_eq_none (cs data : List Char) :
    validate_color_counts_aux cs data = none ↔ ∀ c ∈ cs, data.count c = 9 := by
  induction cs with
  | nil => simp [validate_color_counts_aux]
  | cons c cs ih =>
    by_cases hc : data.count c = 9 <;> simp [validate_color_counts_aux, hc, ih]

theorem validate_color_counts_eq_none (s : String) :
    validate_color_counts s = none ↔
      (s.data.count 'U' = 9 ∧ s.data.count 'R' = 9 ∧ s.data.count 'F' = 9
        ∧ s.data.count 'D' = 9 ∧ s.data.count 'L' = 9 ∧ s.data.count 'B' = 9) := by
  unfold validate_color_counts
  rw [validate_color_counts_aux_eq_none]
  simp [VALID_CHARS]

theorem validate_cube_structure_aux_eq_none (l : List (Nat × Char)) (data : List Char) :
    validate_cube_structure_aux l data = none ↔
      ∀ pr ∈ l, data.getD pr.1 ' ' = pr.2 := by
  induction l with
  | nil => simp [validate_cube_structure_aux]
  | cons pr rest ih =>
    obtain ⟨i, e⟩ := pr
    have hstep : validate_cube_structure_aux ((i, e) :: rest) data
        = if data.getD i ' ' = e then validate_cube_structure_aux rest data
          else some (InvalidReason.badCenter i e (data.getD i ' ')) := rfl
    rw [hstep]
    by_cases h : data.getD i ' ' = e
    · rw [if_pos h, ih]
      simp only [List.forall_mem_cons]
      exact ⟨fun hr => ⟨h, hr⟩, fun hr => hr.2⟩
    · rw [if_neg h]
      simp only [List.forall_mem_cons]
      constructor
      · intro hx
        exact Option.noConfusion hx
      · rintro ⟨hx, -⟩
        exact absurd hx h

theorem validate_cube_structure_eq_none (s : String) :
    validate_cube_structure s = none ↔
      (s.data.getD 4 ' ' = 'U' ∧ s.data.getD 13 ' ' = 'R'
        ∧ s.data.getD 22 ' ' = 'F' ∧ s.data.getD 31 ' ' = 'D'
        ∧ s.data.getD 40 ' ' = 'L' ∧ s.data.getD 49 ' ' = 'B') := by
  unfold validate_cube_structure
  rw [validate_cube_structure_aux_eq_none]
  simp [CENTER_CHECKS]

/-- C2: lightweight validation accepts exactly the 54-character strings with
no blank, all characters among U,R,F,D,L,B, each label occurring 9 times and
the six fixed centers reading U,R,F,D,L,B; every rejection is an Invalid
state with a reason of the failing kind; a string with ten U stickers and
eight D stickers (others correct) is rejected with the count-mismatch reason
for U; and the solving oracle is never invoked when lightweight validation
fails. -/
theorem lightweight_validation_spec :
    (∀ s : String,
      (perform_lightweight_validation_only s = Validation.valid ↔
        (s.length = 54 ∧ s.data.contains ' ' = false
          ∧ (∀ c ∈ s.data, c ∈ VALID_CHARS)
          ∧ s.data.count 'U' = 9 ∧ s.data.count 'R' = 9 ∧ s.data.count 'F' = 9
          ∧ s.data.count 'D' = 9 ∧ s.data.count 'L' = 9 ∧ s.data.count 'B' = 9
          ∧ s.data.getD 4 ' ' = 'U' ∧ s.data.getD 13 ' ' = 'R'
          ∧ s.data.getD 22 ' ' = 'F' ∧ s.data.getD 31 ' ' = 'D'
          ∧ s.data.getD 40 ' ' = 'L' ∧ s.data.getD 49 ' ' = 'B'))
      ∧ (perform_lightweight_validation_only s = Validation.valid
          ∨ ∃ r, perform_lightweight_validation_only s = Validation.invalid r))
    ∧ (∀ s : String, s.length = 54 → s.data.contains ' ' = false →
        (∀ c ∈ s.data, c ∈ VALID_CHARS) →
        s.data.count 'U' = 10 → s.data.count 'D' = 8 →
        s.data.count 'R' = 9 → s.data.count 'F' = 9 →
        s.data.count 'L' = 9 → s.data.count 'B' = 9 →
        perform_lightweight_validation_only s
          = Validation.invalid (InvalidReason.badCount 'U' 10))
    ∧ (∀ (solveFn : String → Nat → String) (s : String),
        perform_lightweight_validation_only s ≠ Validation.valid →
        (validate solveFn s).2.2 = false
          ∧ (validate solveFn s).1 = perform_lightweight_validation_only s
          ∧ (validate solveFn s).2.1 = none) := by
  refine ⟨?_, ?_, ?_⟩
  · intro s
    have hc1 := validate_characters_eq_none s
    have hc2 := validate_color_counts_eq_none s
    have hc3 := validate_cube_structure_eq_none s
    unfold perform_lightweight_validation_only
    split_ifs with h1 h2
    · constructor
      · constructor
        · intro h; simp at h
        · rintro ⟨hl, -⟩; exact absurd hl h1
      · exact Or.inr ⟨_, rfl⟩
    · constructor
      · constructor
        · intro h; simp at h
        · rintro ⟨-, hb, -⟩; rw [hb] at h2; exact absurd h2 (by simp)
      · exact Or.inr ⟨_, rfl⟩
    · have hl : s.length = 54 := not_not.mp h1
      have hb : s.data.contains ' ' = false := by
        simpa using h2
      rcases hvc : validate_characters s with _ | r
      · rcases hcc : validate_color_counts s with _ | r2
        · rcases hcs : validate_cube_structure s with _ | r3
          · simp only [hvc, hcc, hcs]
            constructor
            · constructor
              · intro _
                obtain ⟨u9, r9, f9, d9, l9, b9⟩ := hc2.mp hcc
                obtain ⟨p4, p13, p22, p31, p40, p49⟩ := hc3.mp hcs
                exact ⟨hl, hb, hc1.mp hvc, u9, r9, f9, d9, l9, b9,
                  p4, p13, p22, p31, p40, p49⟩
              · intro _
                trivial
            · left
              trivial
          · simp only [hvc, hcc, hcs]
            constructor
            · constructor
              · intro h; simp at h
              · rintro ⟨-, -, -, -, -, -, -, -, -, p4, p13, p22, p31, p40, p49⟩
                have := hc3.mpr ⟨p4, p13, p22, p31, p40, p49⟩
                rw [this] at hcs
                exact Option.noConfusion hcs
            · exact Or.inr ⟨_, rfl⟩
        · simp only [hvc, hcc]
          constructor
          · constructor
            · intro h; simp at h
            · rintro ⟨-, -, -, u9, r9, f9, d9, l9, b9, -⟩
              have := hc2.mpr ⟨u9, r9, f9, d9, l9, b9⟩
              rw [this] at hcc
              exact Option.noConfusion hcc
          · exact Or.inr ⟨_, rfl⟩
      · simp only [hvc]
        constructor
        · constructor
          · intro h; simp at h
          · rintro ⟨-, -, hch, -⟩
            have := hc1.mpr hch
            rw [this] at hvc
            exact Option.noConfusion hvc
        · exact Or.inr ⟨_, rfl⟩
  · intro s hl hb hch hu hd hr hf hlc hbc
    have hch' : validate_characters s = none := (validate_characters_eq_none s).mpr hch
    have hcnt : validate_color_counts s = some (InvalidReason.badCount 'U' 10) := by
      simp [validate_color_counts, VALID_CHARS, validate_color_counts_aux, hu]
    unfold perform_lightweight_validation_only
    rw [if_neg (by simp [hl])]
    rw [if_neg (by rw [hb]; exact Bool.false_ne_true)]
    simp only [hch', hcnt]
  · intro solveFn s h
    unfold validate
    rw [if_neg h]
    exact ⟨rfl, rfl, rfl⟩

/-- C2 witness: the concrete string with a tenth U replacing the first D
facelet is rejected with the U count mismatch. -/
theorem lightweight_validation_witness :
    perform_lightweight_validation_only
        "UUUUUUUUURRRRRRRRRFFFFFFFFFUDDDDDDDDLLLLLLLLLBBBBBBBBB"
      = Validation.invalid (InvalidReason.badCount 'U' 10) :=
  lightweight_validation_spec.2.1 _ (by decide) (by decide) (by decide) (by decide)
    (by decide) (by decide) (by decide) (by decide) (by decide)

/-! ## C3 -/

/-- The taxonomy entry for oracle error code N, as the claim tabulates it. -/
def errorOfCode : Nat → Min2PhaseError
  | 1 => Min2PhaseError.IncorrectColorCount
  | 2 => Min2PhaseError.MissingEdges
  | 3 => Min2PhaseError.EdgeFlipError
  | 4 => Min2PhaseError.MissingCorners
  | 5 => Min2PhaseError.CornerTwistError
  | 6 => Min2PhaseError.ParityError
  | 7 => Min2PhaseError.NoSolutionExists
  | _ => Min2PhaseError.ProbeLimitExceeded

theorem attempt_solve_error_code (solveFn : String → Nat → String) (s : String)
    (e : Min2PhaseError)
    (hfe : Min2PhaseError.from_error_code (solveFn s 21) = some e)
    (hsw : str_starts_with (solveFn s 21) "Error" = true) :
    attempt_solve solveFn s
      = (Validation.solvingFailed (FailMsg.known e (solveFn s 21)), none) := by
  simp only [attempt_solve, hsw, if_true, hfe]

/-- C3: after lightweight validation passes, full validation invokes the
oracle (with the facelet string and depth 21, as the definition of
attempt_solve fixes); an oracle reply Error N for N in 1..8 moves the state
to SolvingFailed carrying the taxonomy entry for N, Error 6 in particular
carrying the parity entry with non-empty description and remediation texts;
any other reply is stored as the solution with state Valid, and the reply
F R U yields exactly the three move tokens F, R, U. -/
theorem full_validation_spec (solveFn : String → Nat → String) (s : String)
    (hlw : perform_lightweight_validation_only s = Validation.valid) :
    (validate solveFn s).2.2 = true
    ∧ (∀ n : Nat, 1 ≤ n → n ≤ 8 → solveFn s 21 = "Error " ++ toString n →
        (validate solveFn s).1
            = Validation.solvingFailed (FailMsg.known (errorOfCode n) (solveFn s 21))
          ∧ (validate solveFn s).2.1 = none)
    ∧ (str_starts_with (solveFn s 21) "Error" = true →
        ∃ m, (validate solveFn s).1 = Validation.solvingFailed m)
    ∧ (solveFn s 21 = "Error 6" →
        (validate solveFn s).1
            = Validation.solvingFailed
                (FailMsg.known Min2PhaseError.ParityError "Error 6")
          ∧ Min2PhaseError.description Min2PhaseError.ParityError ≠ ""
          ∧ Min2PhaseError.detailed_explanation Min2PhaseError.ParityError ≠ ""
          ∧ Min2PhaseError.suggestions Min2PhaseError.ParityError ≠ "")
    ∧ (str_starts_with (solveFn s 21) "Error" = false →
        (validate solveFn s).1 = Validation.valid
          ∧ (validate solveFn s).2.1 = some (solveFn s 21))
    ∧ (solveFn s 21 = "F R U" →
        (validate solveFn s).2.1 = some "F R U"
          ∧ solution_moves (validate solveFn s).2.1 = ["F", "R", "U"]) := by
  have hv : validate solveFn s
      = ((attempt_solve solveFn s).1, (attempt_solve solveFn s).2, true) := by
    unfold validate
    rw [if_pos hlw]
  refine ⟨by rw [hv], ?_, ?_, ?_, ?_, ?_⟩
  · intro n h1 h8 hr
    have hsw : str_starts_with (solveFn s 21) "Error" = true := by
      rw [hr]
      interval_cases n <;> decide
    have hfe : Min2PhaseError.from_error_code (solveFn s 21)
        = some (errorOfCode n) := by
      rw [hr]
      interval_cases n <;> decide
    rw [hv, attempt_solve_error_code solveFn s _ hfe hsw]
    exact ⟨rfl, rfl⟩
  · intro h
    rw [hv]
    rcases hfe : Min2PhaseError.from_error_code (solveFn s 21) with _ | e
    · simp only [attempt_solve, h, if_true, hfe]
      exact ⟨_, rfl⟩
    · simp only [attempt_solve, h, if_true, hfe]
      exact ⟨_, rfl⟩
  · intro hr
    have hsw : str_starts_with (solveFn s 21) "Error" = true := by
      rw [hr]; decide
    have hfe : Min2PhaseError.from_error_code (solveFn s 21)
        = some Min2PhaseError.ParityError := by
      rw [hr]; decide
    rw [hv, attempt_solve_error_code solveFn s _ hfe hsw, hr]
    exact ⟨rfl, by decide, by decide, by decide⟩
  · intro h
    rw [hv]
    simp only [attempt_solve, h, Bool.false_eq_true, if_false]
    exact ⟨trivial, trivial⟩
  · intro hr
    have hs : str_starts_with (solveFn s 21) "Error" = false := by
      rw [hr]; decide
    rw [hv]
    simp only [attempt_solve, hs, Bool.false_eq_true, if_false, hr]
    exact ⟨rfl, by decide⟩

/-- C3 witness: with the solved-cube string, an oracle answering Error 6
fails with the parity entry, and an oracle answering F R U yields the three
move tokens. -/
theorem full_validation_witness :
    (validate (fun _ _ => "Error 6")
        "UUUUUUUUURRRRRRRRRFFFFFFFFFDDDDDDDDDLLLLLLLLLBBBBBBBBB").1
      = Validation.solvingFailed (FailMsg.known Min2PhaseError.ParityError "Error 6")
    ∧ solution_moves
        (validate (fun _ _ => "F R U")
          "UUUUUUUUURRRRRRRRRFFFFFFFFFDDDDDDDDDLLLLLLLLLBBBBBBBBB").2.1
      = ["F", "R", "U"] :=
  ⟨((full_validation_spec (fun _ _ => "Error 6") _ (by decide)).2.2.2.1 rfl).1,
   ((full_validation_spec (fun _ _ => "F R U") _ (by decide)).2.2.2.2.2 rfl).2⟩

/-! ## Facelet mapping (solver_integration.rs, components.rs) -/

/-- Model of Orientation (components.rs). -/
inductive Orientation
  | Up
  | Down
  | Front
  | Back
  | Right
  | Left
deriving DecidableEq

/-- Model of Orientation::facelet_offset (components.rs); the usize result is
carried as an integer. -/
def facelet_offset : Orientation → Int
  | Orientation.Up => 0
  | Orientation.Right => 9
  | Orientation.Front => 18
  | Orientation.Down => 27
  | Orientation.Left => 36
  | Orientation.Back => 45

/-- Model of calculate_position_in_face_from_indices (solver_integration.rs)
over exact integer rest-grid indices; on the domain where each index lies in
-1..1 the float-to-usize casts of the source are the identity, and the result
is grid_y * 3 + grid_x with the per-face component choice of the source. -/
def calculate_position_in_face_from_indices (ix iy iz : Int) (o : Orientation) : Int :=
  match o with
  | Orientation.Front => (-iy + 1) * 3 + (ix + 1)
  | Orientation.Back => (-iy + 1) * 3 + (-ix + 1)
  | Orientation.Left => (-iy + 1) * 3 + (iz + 1)
  | Orientation.Right => (-iy + 1) * 3 + (-iz + 1)
  | Orientation.Up => (iz + 1) * 3 + (ix + 1)
  | Orientation.Down => (-iz + 1) * 3 + (ix + 1)

/-- Model of the facelets buffer of map_entities_to_facelets: 54 blanks, then
one write per colored sticker at its computed index, writes beyond the buffer
dropped as by the bounds check of the source. -/
def map_entities_to_facelets (writes : List (Nat × Char)) : List Char :=
  writes.foldl (fun acc w => if w.1 < 54 then acc.set w.1 w.2 else acc)
    (List.replicate 54 ' ')

/-- Column and row of a sticker inside its face, as the claim tabulates them
(spec-side definition for the refinement statement). -/
def spec_col_row : Orientation → Int → Int → Int → Int × Int
  | Orientation.Front, ix, iy, _ => (ix + 1, 1 - iy)
  | Orientation.Back, ix, iy, _ => (1 - ix, 1 - iy)
  | Orientation.Left, _, iy, iz => (iz + 1, 1 - iy)
  | Orientation.Right, _, iy, iz => (1 - iz, 1 - iy)
  | Orientation.Up, ix, _, iz => (ix + 1, iz + 1)
  | Orientation.Down, ix, _, iz => (ix + 1, 1 - iz)

/-! ## C4 -/

/-- C4: for every rest-grid coordinate with components in -1..1 and every
face, the within-face index equals 3 * row + col under the face rules of the
claim, the facelet index offset + grid index lies in 0..53 with the group
offsets U=0, R=9, F=18, D=27, L=36, B=45, and buffer positions no sticker
writes keep the blank character. -/
theorem facelet_index_spec :
    (∀ o : Orientation, ∀ ix ∈ ([-1, 0, 1] : List Int), ∀ iy ∈ ([-1, 0, 1] : List Int),
        ∀ iz ∈ ([-1, 0, 1] : List Int),
        calculate_position_in_face_from_indices ix iy iz o
            = 3 * (spec_col_row o ix iy iz).2 + (spec_col_row o ix iy iz).1
          ∧ 0 ≤ facelet_offset o + calculate_position_in_face_from_indices ix iy iz o
          ∧ facelet_offset o + calculate_position_in_face_from_indices ix iy iz o ≤ 53)
    ∧ (∀ (writes : List (Nat × Char)) (j : Nat), j < 54 →
        (∀ w ∈ writes, w.1 ≠ j) →
        (map_entities_to_facelets writes).getD j 'X' = ' ') := by
  constructor
  · intro o
    cases o <;> decide
  · intro writes j hj hw
    have key : ∀ (ws : List (Nat × Char)) (acc : List Char),
        (∀ w ∈ ws, w.1 ≠ j) →
        (ws.foldl (fun acc w => if w.1 < 54 then acc.set w.1 w.2 else acc) acc)[j]?
          = acc[j]? := by
      intro ws
      induction ws with
      | nil => intro acc _; rfl
      | cons w ws ih =>
        intro acc hws
        have hne : w.1 ≠ j := hws w (List.mem_cons_self w ws)
        simp only [List.foldl]
        rw [ih _ (fun v hv => hws v (List.mem_cons_of_mem w hv))]
        by_cases hlt : w.1 < 54
        · rw [if_pos hlt]
          exact List.getElem?_set_ne hne
        · rw [if_neg hlt]
    unfold map_entities_to_facelets
    rw [List.getD_eq_getElem?_getD, key writes _ hw,
      List.getElem?_replicate_of_lt hj]
    rfl

/-- C4 witness: the sticker of the piece at rest coordinate (1,-1,0) seen on
the Front face lands at column 2, row 2, grid index 8, facelet index 26, and
an untouched buffer position stays blank. -/
theorem facelet_index_witness :
    (calculate_position_in_face_from_indices 1 (-1) 0 Orientation.Front
        = 3 * (spec_col_row Orientation.Front 1 (-1) 0).2
            + (spec_col_row Orientation.Front 1 (-1) 0).1
      ∧ 0 ≤ facelet_offset Orientation.Front
            + calculate_position_in_face_from_indices 1 (-1) 0 Orientation.Front
      ∧ facelet_offset Orientation.Front
            + calculate_position_in_face_from_indices 1 (-1) 0 Orientation.Front ≤ 53)
    ∧ (map_entities_to_facelets [(0, 'U')]).getD 5 'X' = ' ' :=
  ⟨facelet_index_spec.1 Orientation.Front 1 (by decide) (-1) (by decide) 0 (by decide),
   facelet_index_spec.2 [(0, 'U')] 5 (by decide) (by decide)⟩

/-! ## Center canonicalization (solver_integration.rs:
remap_facelets_by_centers) -/

def DEFAULT_CENTER_FACES : List Char := ['U', 'R', 'F', 'D', 'L', 'B']

def CENTER_FACELET_INDICES : List Nat := [4, 13, 22, 31, 40, 49]

/-- The characters at the six fixed center positions. -/
def current_centers (s : String) : List Char :=
  CENTER_FACELET_INDICES.map (fun i => s.data.getD i ' ')

/-- Model of the color HashMap built by remap_facelets_by_centers: inserts
happen in center order and a later insert for the same key overwrites an
earlier one, blank centers are skipped, and a lookup miss falls back to the
queried character itself (unwrap_or). -/
def color_mapping (centers : List Char) : Char → Char :=
  (centers.zip DEFAULT_CENTER_FACES).foldl
    (fun f kv => if kv.1 = ' ' then f else fun c => if c = kv.1 then kv.2 else f c)
    (fun c => c)

/-- Model of remap_facelets_by_centers: strings of the wrong length pass
through, otherwise every non-blank character is remapped and blanks are kept.
-/
def remap_facelets_by_centers (s : String) : String :=
  if s.length ≠ 54 then s
  else
    String.mk (s.data.map
      (fun c => if c = ' ' then c else color_mapping (current_centers s) c))

theorem color_mapping_eval (c0 c1 c2 c3 c4 c5 x : Char)
    (h0 : c0 ≠ ' ') (h1 : c1 ≠ ' ') (h2 : c2 ≠ ' ')
    (h3 : c3 ≠ ' ') (h4 : c4 ≠ ' ') (h5 : c5 ≠ ' ') :
    color_mapping [c0, c1, c2, c3, c4, c5] x
      = if x = c5 then 'B' else if x = c4 then 'L' else if x = c3 then 'D'
        else if x = c2 then 'F' else if x = c1 then 'R'
        else if x = c0 then 'U' else x := by
  simp only [color_mapping, DEFAULT_CENTER_FACES, List.zip, List.zipWith, List.foldl]
  simp [h0, h1, h2, h3, h4, h5]

/-! ## C5 -/

/-- C5: for a 54-character facelet string whose six center characters are
distinct and non-blank, the canonicalizer maps the character found at
position 4 to U, at 13 to R, at 22 to F, at 31 to D, at 40 to L and at 49 to
B; the output is exactly the input with that mapping applied to every
non-blank character and blanks passed through; and the six centers of the
output read U,R,F,D,L,B. -/
theorem remap_centers_spec (s : String) (hl : s.length = 54)
    (hnb : ∀ c ∈ current_centers s, c ≠ ' ')
    (hnd : (current_centers s).Nodup) :
    (color_mapping (current_centers s) (s.data.getD 4 ' ') = 'U'
      ∧ color_mapping (current_centers s) (s.data.getD 13 ' ') = 'R'
      ∧ color_mapping (current_centers s) (s.data.getD 22 ' ') = 'F'
      ∧ color_mapping (current_centers s) (s.data.getD 31 ' ') = 'D'
      ∧ color_mapping (current_centers s) (s.data.getD 40 ' ') = 'L'
      ∧ color_mapping (current_centers s) (s.data.getD 49 ' ') = 'B')
    ∧ (remap_facelets_by_centers s).data
        = s.data.map (fun c => if c = ' ' then c
            else color_mapping (current_centers s) c)
    ∧ ((remap_facelets_by_centers s).data.getD 4 ' ' = 'U'
      ∧ (remap_facelets_by_centers s).data.getD 13 ' ' = 'R'
      ∧ (remap_facelets_by_centers s).data.getD 22 ' ' = 'F'
      ∧ (remap_facelets_by_centers s).data.getD 31 ' ' = 'D'
      ∧ (remap_facelets_by_centers s).data.getD 40 ' ' = 'L'
      ∧ (remap_facelets_by_centers s).data.getD 49 ' ' = 'B') := by
  set a0 := s.data.getD 4 ' ' with ha0def
  set a1 := s.data.getD 13 ' ' with ha1def
  set a2 := s.data.getD 22 ' ' with ha2def
  set a3 := s.data.getD 31 ' ' with ha3def
  set a4 := s.data.getD 40 ' ' with ha4def
  set a5 := s.data.getD 49 ' ' with ha5def
  have hcent : current_centers s = [a0, a1, a2, a3, a4, a5] := rfl
  have hb0 : a0 ≠ ' ' := hnb a0 (by rw [hcent]; simp)
  have hb1 : a1 ≠ ' ' := hnb a1 (by rw [hcent]; simp)
  have hb2 : a2 ≠ ' ' := hnb a2 (by rw [hcent]; simp)
  have hb3 : a3 ≠ ' ' := hnb a3 (by rw [hcent]; simp)
  have hb4 : a4 ≠ ' ' := hnb a4 (by rw [hcent]; simp)
  have hb5 : a5 ≠ ' ' := hnb a5 (by rw [hcent]; simp)
  have hndl : List.Nodup [a0, a1, a2, a3, a4, a5] := by
    rw [← hcent]
    exact hnd
  simp only [List.nodup_cons, List.mem_cons, List.mem_singleton, List.not_mem_nil,
    or_false, not_or, List.nodup_nil, and_true] at hndl
  obtain ⟨⟨h01, h02, h03, h04, h05⟩, ⟨h12, h13, h14, h15⟩, ⟨h23, h24, h25⟩,
    ⟨h34, h35⟩, h45, -⟩ := hndl
  have hm0 : color_mapping (current_centers s) a0 = 'U' := by
    rw [hcent, color_mapping_eval a0 a1 a2 a3 a4 a5 a0 hb0 hb1 hb2 hb3 hb4 hb5,
      if_neg h05, if_neg h04, if_neg h03, if_neg h02, if_neg h01, if_pos rfl]
  have hm1 : color_mapping (current_centers s) a1 = 'R' := by
    rw [hcent, color_mapping_eval a0 a1 a2 a3 a4 a5 a1 hb0 hb1 hb2 hb3 hb4 hb5,
      if_neg h15, if_neg h14, if_neg h13, if_neg h12, if_pos rfl]
  have hm2 : color_mapping (current_centers s) a2 = 'F' := by
    rw [hcent, color_mapping_eval a0 a1 a2 a3 a4 a5 a2 hb0 hb1 hb2 hb3 hb4 hb5,
      if_neg h25, if_neg h24, if_neg h23, if_pos rfl]
  have hm3 : color_mapping (current_centers s) a3 = 'D' := by
    rw [hcent, color_mapping_eval a0 a1 a2 a3 a4 a5 a3 hb0 hb1 hb2 hb3 hb4 hb5,
      if_neg h35, if_neg h34, if_pos rfl]
  have hm4 : color_mapping (current_centers s) a4 = 'L' := by
    rw [hcent, color_mapping_eval a0 a1 a2 a3 a4 a5 a4 hb0 hb1 hb2 hb3 hb4 hb5,
      if_neg h45, if_pos rfl]
  have hm5 : color_mapping (current_centers s) a5 = 'B' := by
    rw [hcent, color_mapping_eval a0 a1 a2 a3 a4 a5 a5 hb0 hb1 hb2 hb3 hb4 hb5,
      if_pos rfl]
  have hdata : (remap_facelets_by_centers s).data
      = s.data.map (fun c => if c = ' ' then c
          else color_mapping (current_centers s) c) := by
    unfold remap_facelets_by_centers
    rw [if_neg (by simp [hl])]
  have hdl : s.data.length = 54 := hl
  have hmapj : ∀ j : Nat, j < 54 →
      (remap_facelets_by_centers s).data.getD j ' '
        = (if s.data.getD j ' ' = ' ' then s.data.getD j ' '
           else color_mapping (current_centers s) (s.data.getD j ' ')) := by
    intro j hj
    rw [hdata, List.getD_eq_getElem?_getD, List.getElem?_map,
      List.getElem?_eq_getElem (show j < s.data.length by omega)]
    simp [List.getD_eq_getElem?_getD,
      List.getElem?_eq_getElem (show j < s.data.length by omega)]
  refine ⟨⟨hm0, hm1, hm2, hm3, hm4, hm5⟩, hdata, ?_, ?_, ?_, ?_, ?_, ?_⟩
  · rw [hmapj 4 (by omega), ← ha0def, if_neg hb0, hm0]
  · rw [hmapj 13 (by omega), ← ha1def, if_neg hb1, hm1]
  · rw [hmapj 22 (by omega), ← ha2def, if_neg hb2, hm2]
  · rw [hmapj 31 (by omega), ← ha3def, if_neg hb3, hm3]
  · rw [hmapj 40 (by omega), ← ha4def, if_neg hb4, hm4]
  · rw [hmapj 49 (by omega), ← ha5def, if_neg hb5, hm5]

/-- C5 witness: the solved-cube string has distinct non-blank centers; its
center mapping fixes U and the remapped string keeps a U center. -/
theorem remap_centers_witness :
    color_mapping
        (current_centers "UUUUUUUUURRRRRRRRRFFFFFFFFFDDDDDDDDDLLLLLLLLLBBBBBBBBB")
        ("UUUUUUUUURRRRRRRRRFFFFFFFFFDDDDDDDDDLLLLLLLLLBBBBBBBBB".data.getD 4 ' ')
        = 'U'
    ∧ (remap_facelets_by_centers
        "UUUUUUUUURRRRRRRRRFFFFFFFFFDDDDDDDDDLLLLLLLLLBBBBBBBBB").data.getD 4 ' '
        = 'U' :=
  ⟨(remap_centers_spec _ (by decide) (by decide) (by decide)).1.1,
   (remap_centers_spec _ (by decide) (by decide) (by decide)).2.2.1⟩

/-! ## Axis-aligned rotation snapping (layer_rotation.rs:
snap_rotation_to_axis_aligned)

The source converts the quaternion to a Mat3, snaps the first two column
axes, re-orthonormalizes with cross products, and converts back; the model
works directly on the rotation matrix the quaternion denotes.  The final
Vec3::normalize calls act on vectors that are always signed cardinal units,
where normalization is exact identity, which is how it is modelled (rationals
have no square roots). -/

/-- Model of f32::signum: 1 for non-negative (the source never feeds NaN),
-1 for negative. -/
def signumRust (q : ℚ) : ℚ := if q < 0 then -1 else 1

/-- Model of the snap_dir helper: nearest cardinal axis, ties resolved toward
x then y as the source's comparison chain does. -/
def snap_dir (v : V3) : V3 :=
  if |v.y| ≤ |v.x| ∧ |v.z| ≤ |v.x| then ⟨signumRust v.x, 0, 0⟩
  else if |v.z| ≤ |v.y| then ⟨0, signumRust v.y, 0⟩
  else ⟨0, 0, signumRust v.z⟩

/-- Model of Vec3::normalize at the call sites of the snap function, where
the argument is always a signed cardinal unit vector. -/
def normalizeUnit (v : V3) : V3 := v

/-- The tail of snap_rotation_to_axis_aligned after the two snaps: the
degenerate fallback when the snapped axes collide, the cross-product
re-orthonormalization, and the column assembly. -/
def snap_finish (x y0 : V3) : M3 :=
  let z0 := V3.cross x y0
  let y1 :=
    if V3.normSq z0 < 1 / 2 then
      (if 1 / 2 < |x.x| then (⟨0, 0, 1⟩ : V3) else ⟨1, 0, 0⟩)
    else y0
  let z1 := if V3.normSq z0 < 1 / 2 then V3.cross x y1 else z0
  let y2 := V3.cross z1 x
  ⟨normalizeUnit x, normalizeUnit y2, normalizeUnit z1⟩

/-- Model of snap_rotation_to_axis_aligned on the rotation matrix. -/
def snap_rotation_to_axis_aligned (m : M3) : M3 :=
  snap_finish (snap_dir m.cx) (snap_dir m.cy)

/-- The six signed cardinal unit vectors. -/
def cardinalDirs : List V3 :=
  [⟨1, 0, 0⟩, ⟨-1, 0, 0⟩, ⟨0, 1, 0⟩, ⟨0, -1, 0⟩, ⟨0, 0, 1⟩, ⟨0, 0, -1⟩]

/-- One of the 24 axis-aligned orientations: cardinal orthonormal columns
forming a right-handed basis. -/
def isAxisAlignedRot (m : M3) : Prop :=
  m.cx ∈ cardinalDirs ∧ m.cy ∈ cardinalDirs ∧ m.cz ∈ cardinalDirs
    ∧ V3.dot m.cx m.cy = 0 ∧ V3.dot m.cy m.cz = 0 ∧ V3.dot m.cx m.cz = 0
    ∧ V3.cross m.cx m.cy = m.cz ∧ m.det = 1

instance decidableIsAxisAlignedRot (m : M3) : Decidable (isAxisAlignedRot m) := by
  unfold isAxisAlignedRot
  infer_instance

theorem snap_dir_mem (v : V3) : snap_dir v ∈ cardinalDirs := by
  unfold snap_dir signumRust
  split_ifs <;> decide

theorem snap_dir_cardinal (v : V3) (h : v ∈ cardinalDirs) : snap_dir v = v := by
  fin_cases h <;> decide

theorem snap_finish_good (x : V3) (hx : x ∈ cardinalDirs) (y : V3)
    (hy : y ∈ cardinalDirs) : isAxisAlignedRot (snap_finish x y) := by
  fin_cases hx <;> fin_cases hy <;>
    norm_num [snap_finish, normalizeUnit, isAxisAlignedRot, V3.cross, V3.normSq,
      V3.dot, M3.det, cardinalDirs, V3.mk.injEq]

theorem snap_finish_fixed (x y z : V3) (hx : x ∈ cardinalDirs)
    (hy : y ∈ cardinalDirs) (hd : V3.dot x y = 0) (hc : V3.cross x y = z) :
    snap_finish x y = M3.mk x y z := by
  subst hc
  fin_cases hx <;> fin_cases hy <;>
    first
    | (norm_num [snap_finish, normalizeUnit, V3.cross, V3.normSq, V3.dot,
        M3.mk.injEq, V3.mk.injEq]; done)
    | (exfalso; norm_num [V3.dot] at hd)

/-! ## C10 -/

/-- C10: for every input rotation, the axis-aligned snap returns one of the
24 axis-aligned orientations (columns are signed cardinal units forming a
right-handed orthonormal basis), including the degenerate fallback branch,
and it is idempotent. -/
theorem snap_rotation_axis_aligned_spec (m : M3) :
    isAxisAlignedRot (snap_rotation_to_axis_aligned m)
      ∧ snap_rotation_to_axis_aligned (snap_rotation_to_axis_aligned m)
          = snap_rotation_to_axis_aligned m := by
  have hgood : isAxisAlignedRot (snap_rotation_to_axis_aligned m) :=
    snap_finish_good _ (snap_dir_mem m.cx) _ (snap_dir_mem m.cy)
  refine ⟨hgood, ?_⟩
  obtain ⟨hcx, hcy, hcz, hdxy, hdyz, hdxz, hcross, hdet⟩ := hgood
  have h1 : snap_dir (snap_rotation_to_axis_aligned m).cx
      = (snap_rotation_to_axis_aligned m).cx := snap_dir_cardinal _ hcx
  have h2 : snap_dir (snap_rotation_to_axis_aligned m).cy
      = (snap_rotation_to_axis_aligned m).cy := snap_dir_cardinal _ hcy
  calc snap_rotation_to_axis_aligned (snap_rotation_to_axis_aligned m)
      = snap_finish (snap_rotation_to_axis_aligned m).cx
          (snap_rotation_to_axis_aligned m).cy := by
        rw [show snap_rotation_to_axis_aligned (snap_rotation_to_axis_aligned m)
            = snap_finish (snap_dir (snap_rotation_to_axis_aligned m).cx)
                (snap_dir (snap_rotation_to_axis_aligned m).cy) from rfl, h1, h2]
    _ = M3.mk (snap_rotation_to_axis_aligned m).cx
          (snap_rotation_to_axis_aligned m).cy
          (snap_rotation_to_axis_aligned m).cz :=
        snap_finish_fixed _ _ _ hcx hcy hdxy hcross
    _ = snap_rotation_to_axis_aligned m := rfl

/-! ## Reparenting and rotation animation state (layer_rotation.rs)

One pivot and its cubes are modelled explicitly (the single-flight discipline
means only one pivot is ever mid-turn).  Each piece carries the
GlobalTransform snapshot the systems read (it is stale within the tick:
transform propagation runs afterwards), its mutable local Transform and its
current owner; ownership writes and transform writes are applied in program
order, matching the net effect of the deferred command queue of the source.
-/

/-- The owner of a cube piece: the root cube entity or the slice pivot. -/
inductive Owner
  | root
  | pivot
deriving DecidableEq

/-- A cube piece as seen by prepare_layer_rotation and
layer_rotation_system. -/
structure Piece where
  global : Pose
  localT : Pose
  owner : Owner
deriving DecidableEq

/-- Model of LayerRotationAnimation (layer_components.rs).  The
target_rotation and axis fields drive only the mid-animation visual pose,
whose axis-angle matrix is transcendental; that pose update is therefore kept
opaque (see layer_rotation_system below), and the unused current_rotation
field is dropped. -/
structure Anim where
  duration : ℚ
  elapsed : ℚ
  initialRot : M3
  move_type : LayerMoveType
deriving DecidableEq

/-- Model of LayerRotationCompletedEvent (ui/rotations_panel.rs). -/
structure CompletedEvent where
  layer_face : LayerFace
  move_type : LayerMoveType
deriving DecidableEq

/-- The per-pivot state the two systems read and write: root and pivot
GlobalTransform snapshots, the slice of the pivot, the local orientation of
the pivot Transform, the optional animation, the RotationPrepared marker and
the cube pieces. -/
structure RotState where
  rootG : Pose
  pivotG : Pose
  face : LayerFace
  pivotRot : M3
  anim : Option Anim
  prepared : Bool
  pieces : List Piece
deriving DecidableEq

/-- Stale-children pass of prepare_layer_rotation: a piece still owned by the
pivot is returned to root with its root-relative pose, translation snapped to
the grid, rotation and scale kept. -/
def return_cube_to_root (rootG : Pose) (p : Piece) : Piece :=
  let rel := Pose.comp (Pose.inv rootG) p.global
  { p with owner := Owner.root,
           localT := ⟨rel.rot, snap_vec3_to_grid rel.trans⟩ }

/-- Membership pass of prepare_layer_rotation: a slice member goes under the
pivot with its exact pivot-relative pose (no snap), any other piece goes or
stays under root with its root-relative pose, translation snapped. -/
def assign_cube_for_rotation (rootG pivotG : Pose) (face : LayerFace)
    (p : Piece) : Piece :=
  let relRoot := Pose.comp (Pose.inv rootG) p.global
  if cube_belongs_to_layer relRoot.trans face then
    { p with owner := Owner.pivot,
             localT := Pose.comp (Pose.inv pivotG) p.global }
  else
    { p with owner := Owner.root,
             localT := ⟨relRoot.rot, snap_vec3_to_grid relRoot.trans⟩ }

/-- Model of prepare_layer_rotation for one pivot and one tick: it runs only
when the pivot carries an animation and no RotationPrepared marker; the stale
children are first returned to root, then every cube is assigned by
root-relative slice membership, then the pivot is marked prepared. -/
def prepare_layer_rotation (st : RotState) : RotState :=
  if st.anim.isSome = true ∧ st.prepared = false then
    { st with
        pieces :=
          (st.pieces.map (fun p =>
            if p.owner = Owner.pivot then return_cube_to_root st.rootG p
            else p)).map
            (assign_cube_for_rotation st.rootG st.pivotG st.face),
        prepared := true }
  else st

theorem prepare_layer_rotation_of_prepared (st : RotState)
    (h : st.prepared = true) : prepare_layer_rotation st = st := by
  unfold prepare_layer_rotation
  rw [if_neg]
  simp [h]

/-- Finalize branch of layer_rotation_system for one child: back to root with
the root-relative pose, translation snapped to the grid and rotation snapped
to the nearest axis-aligned basis. -/
def finalize_child (rootG : Pose) (p : Piece) : Piece :=
  let rel := Pose.comp (Pose.inv rootG) p.global
  { p with owner := Owner.root,
           localT := ⟨snap_rotation_to_axis_aligned rel.rot,
                      snap_vec3_to_grid rel.trans⟩ }

/-- Model of layer_rotation_system for one pivot and one tick, with the
animating-pose update kept opaque as animRot: elapsed grows by the tick
delta; on completion (elapsed at or past duration) every piece owned by the
pivot is finalized and reparented to root, the pivot orientation resets to
the pre-turn snapshot, the animation and the prepared marker are removed and
exactly one completion event carrying the slice and turn kind is emitted;
otherwise only the animation clock and the visual pivot orientation advance.
-/
def layer_rotation_system (animRot : Anim → M3) (dt : ℚ) (st : RotState) :
    RotState × List CompletedEvent :=
  match st.anim with
  | none => (st, [])
  | some a =>
    if st.prepared = false then (st, [])
    else
      let a2 := { a with elapsed := a.elapsed + dt }
      if a2.duration ≤ a2.elapsed then
        ({ st with
            pieces := st.pieces.map (fun p =>
              if p.owner = Owner.pivot then finalize_child st.rootG p else p),
            pivotRot := a.initialRot,
            anim := none,
            prepared := false },
         [⟨st.face, a.move_type⟩])
      else
        ({ st with anim := some a2,
                   pivotRot := M3.mul a.initialRot (animRot a2) },
         [])

/-! ## C6 -/

/-- C6: when the prepare phase runs for a pivot with a fresh animation, every
stale child is first returned to root with its root-relative translation
snapped and rotation kept; then every piece whose root-relative position
belongs to the slice ends up owned by the pivot with a pivot-relative pose
composing back to its exact world pose, every other piece ends up owned by
root with translation snapped and rotation kept; both passes leave the world
pose snapshot untouched, and the pivot is marked prepared so the phase does
not run again. -/
theorem prepare_layer_rotation_spec (st : RotState)
    (hAnim : st.anim.isSome = true) (hPrep : st.prepared = false)
    (hdet : M3.det st.pivotG.rot ≠ 0) :
    (prepare_layer_rotation st).prepared = true
    ∧ (prepare_layer_rotation st).pieces
        = st.pieces.map (fun p =>
            assign_cube_for_rotation st.rootG st.pivotG st.face
              (if p.owner = Owner.pivot then return_cube_to_root st.rootG p
               else p))
    ∧ (∀ p : Piece, p.owner = Owner.pivot →
        (return_cube_to_root st.rootG p).owner = Owner.root
        ∧ (return_cube_to_root st.rootG p).localT.trans
            = snap_vec3_to_grid (Pose.comp (Pose.inv st.rootG) p.global).trans
        ∧ (return_cube_to_root st.rootG p).localT.rot
            = (Pose.comp (Pose.inv st.rootG) p.global).rot
        ∧ (return_cube_to_root st.rootG p).global = p.global)
    ∧ (∀ p : Piece,
        (cube_belongs_to_layer (Pose.comp (Pose.inv st.rootG) p.global).trans
              st.face = true →
          (assign_cube_for_rotation st.rootG st.pivotG st.face p).owner
              = Owner.pivot
          ∧ Pose.comp st.pivotG
              (assign_cube_for_rotation st.rootG st.pivotG st.face p).localT
              = p.global)
        ∧ (cube_belongs_to_layer (Pose.comp (Pose.inv st.rootG) p.global).trans
              st.face = false →
          (assign_cube_for_rotation st.rootG st.pivotG st.face p).owner
              = Owner.root
          ∧ (assign_cube_for_rotation st.rootG st.pivotG st.face p).localT.trans
              = snap_vec3_to_grid (Pose.comp (Pose.inv st.rootG) p.global).trans
          ∧ (assign_cube_for_rotation st.rootG st.pivotG st.face p).localT.rot
              = (Pose.comp (Pose.inv st.rootG) p.global).rot)
        ∧ (assign_cube_for_rotation st.rootG st.pivotG st.face p).global
            = p.global)
    ∧ prepare_layer_rotation (prepare_layer_rotation st)
        = prepare_layer_rotation st := by
  have hrun : prepare_layer_rotation st
      = { st with
            pieces :=
              (st.pieces.map (fun p =>
                if p.owner = Owner.pivot then return_cube_to_root st.rootG p
                else p)).map
                (assign_cube_for_rotation st.rootG st.pivotG st.face),
            prepared := true } := by
    unfold prepare_layer_rotation
    rw [if_pos ⟨hAnim, hPrep⟩]
  refine ⟨by rw [hrun], ?_, ?_, ?_, ?_⟩
  · rw [hrun, List.map_map]
    rfl
  · intro p hp
    exact ⟨rfl, rfl, rfl, rfl⟩
  · intro p
    refine ⟨?_, ?_, ?_⟩
    · intro hb
      unfold assign_cube_for_rotation
      rw [if_pos (by simpa using hb)]
      exact ⟨rfl, Pose.comp_inv_comp st.pivotG p.global hdet⟩
    · intro hb
      unfold assign_cube_for_rotation
      rw [if_neg (by simp [hb])]
      exact ⟨rfl, rfl, rfl⟩
    · unfold assign_cube_for_rotation
      by_cases hb : cube_belongs_to_layer
          (Pose.comp (Pose.inv st.rootG) p.global).trans st.face = true
      · rw [if_pos (by simpa using hb)]
      · rw [if_neg (by simpa using hb)]
  · exact prepare_layer_rotation_of_prepared _ (by rw [hrun])

/-- Pieces used by the witnesses: the pivot has an animation and the example
states use identity transforms. -/
def exampleAnim : Anim := ⟨7 / 10, 0, M3.idm, LayerMoveType.Clockwise⟩

def examplePrepState : RotState :=
  ⟨Pose.idp, Pose.idp, LayerFace.Right, M3.idm, some exampleAnim, false, []⟩

/-- C6 witness: on a concrete unprepared pivot carrying a fresh animation the
prepare phase sets the prepared marker and is idempotent. -/
theorem prepare_layer_rotation_witness :
    (prepare_layer_rotation examplePrepState).prepared = true
      ∧ prepare_layer_rotation (prepare_layer_rotation examplePrepState)
          = prepare_layer_rotation examplePrepState :=
  ⟨(prepare_layer_rotation_spec examplePrepState rfl rfl
      (by norm_num [examplePrepState, Pose.idp, M3.idm, M3.det, V3.dot,
        V3.cross])).1,
   (prepare_layer_rotation_spec examplePrepState rfl rfl
      (by norm_num [examplePrepState, Pose.idp, M3.idm, M3.det, V3.dot,
        V3.cross])).2.2.2.2⟩

/-! ## C7 -/

/-- C7: on the tick where the elapsed time reaches or passes the duration,
the finalize phase reparents every piece owned by the pivot back to root with
translation snapped to the grid and rotation snapped to the nearest
axis-aligned basis, leaves other pieces alone, resets the pivot orientation
to its pre-turn snapshot, destroys the animation and the prepared marker, and
emits exactly one completion event carrying the slice and the turn kind. -/
theorem finalize_rotation_spec (animRot : Anim → M3) (dt : ℚ) (st : RotState)
    (a : Anim) (hA : st.anim = some a) (hPrep : st.prepared = true)
    (hDone : a.duration ≤ a.elapsed + dt) :
    (layer_rotation_system animRot dt st).2 = [⟨st.face, a.move_type⟩]
    ∧ (layer_rotation_system animRot dt st).1.anim = none
    ∧ (layer_rotation_system animRot dt st).1.prepared = false
    ∧ (layer_rotation_system animRot dt st).1.pivotRot = a.initialRot
    ∧ (layer_rotation_system animRot dt st).1.pieces
        = st.pieces.map (fun p =>
            if p.owner = Owner.pivot then finalize_child st.rootG p else p)
    ∧ (∀ p : Piece, p.owner = Owner.pivot →
        (finalize_child st.rootG p).owner = Owner.root
        ∧ (finalize_child st.rootG p).localT.trans
            = snap_vec3_to_grid (Pose.comp (Pose.inv st.rootG) p.global).trans
        ∧ (finalize_child st.rootG p).localT.rot
            = snap_rotation_to_axis_aligned
                (Pose.comp (Pose.inv st.rootG) p.global).rot)
    ∧ (∀ p : Piece, p.owner = Owner.root →
        (if p.owner = Owner.pivot then finalize_child st.rootG p else p) = p) := by
  have hstep : layer_rotation_system animRot dt st
      = ({ st with
            pieces := st.pieces.map (fun p =>
              if p.owner = Owner.pivot then finalize_child st.rootG p else p),
            pivotRot := a.initialRot,
            anim := none,
            prepared := false },
         [⟨st.face, a.move_type⟩]) := by
    simp only [layer_rotation_system, hA]
    rw [if_neg (by simp [hPrep]), if_pos (by simpa using hDone)]
  rw [hstep]
  refine ⟨rfl, rfl, rfl, rfl, rfl, ?_, ?_⟩
  · intro p hp
    exact ⟨rfl, rfl, rfl⟩
  · intro p hp
    rw [hp]
    simp

/-- State used by the C7 witness: the example pivot, prepared, one second
into the turn. -/
def exampleRotState : RotState :=
  ⟨Pose.idp, Pose.idp, LayerFace.Right, M3.idm, some exampleAnim, true, []⟩

/-- C7 witness: a tick that passes the duration emits the single completion
event for the Right slice quarter turn and destroys the animation. -/
theorem finalize_rotation_witness :
    (layer_rotation_system (fun _ => M3.idm) 1 exampleRotState).2
        = [⟨LayerFace.Right, LayerMoveType.Clockwise⟩]
      ∧ (layer_rotation_system (fun _ => M3.idm) 1 exampleRotState).1.anim
          = none :=
  ⟨(finalize_rotation_spec (fun _ => M3.idm) 1 exampleRotState exampleAnim rfl rfl
      (by norm_num [exampleAnim])).1,
   (finalize_rotation_spec (fun _ => M3.idm) 1 exampleRotState exampleAnim rfl rfl
      (by norm_num [exampleAnim])).2.1⟩

end CubeSolver
